import Mathlib

/-!
Verification development for the CosmWasm NFT sale engine
(src/coreumNFT.rs) and the collection registry factory
(src/coreumNFTFactory.rs).

The Rust contracts are embedded shallowly: storage maps
(cw_storage_plus Map) become association lists keyed by strings,
machine integers become Nat with explicit reduction modulo 2^64 or
2^128 where the Rust code can wrap, casts such as `as u64` become the
corresponding modular truncation, and fallible methods return the
error (if any) paired with the state of `self` after the method body
ran, mirroring the in-place mutation of `&mut self` methods.

External collaborators are passed in as explicit inputs: the block
time `env.block.time` becomes a `now` argument, the outcome of each
external cw721 mint call becomes an oracle `oks : Nat → Bool`, and the
address produced by `create_collection` (engine instantiation, outside
the engine sources) becomes an explicit argument of the factory
`handle` function.
-/

/-- Bound of the u64 machine integers used by the contracts. -/
def U64 : Nat := 2 ^ 64

/-- Bound of the u128 machine integers used by the contracts. -/
def U128 : Nat := 2 ^ 128

/-- Storage read, modelling `Map.may_load`: the value at the first
matching key, if any. -/
def mayLoad {α : Type} : List (String × α) → String → Option α
  | [], _ => none
  | (k, v) :: rest, key => if k = key then some v else mayLoad rest key

/-- Storage write, modelling `Map.save`: overwrite the entry for the
key, or append a fresh entry. -/
def mapSave {α : Type} : List (String × α) → String → α → List (String × α)
  | [], key, v => [(key, v)]
  | (k, w) :: rest, key, v =>
      if k = key then (key, v) :: rest else (k, w) :: mapSave rest key v

/-- Error kinds of the engine, from the `ContractError` values the code
returns (src/coreumNFT.rs lines 126, 132, 140, 169).  `External` stands
for an error propagated from the external cw721 mint call at line 187. -/
inductive ContractError
  | Unauthorized
  | SaleNotActive
  | InsufficientFunds
  | External
  deriving DecidableEq, Repr

/-- Deployment configuration (src/coreumNFTFactory.rs lines 166-172,
consumed by `State::new` in src/coreumNFT.rs lines 94-109). -/
structure DeploymentConfig where
  name : String
  symbol : String
  max_supply : Nat
  treasury_address : String
  deriving DecidableEq, Repr

/-- Runtime configuration (src/coreumNFTFactory.rs lines 174-184). -/
structure RuntimeConfig where
  base_token_uri : String
  base_token_uri_extension : String
  prereveal_token_uri : String
  mint_price : Nat
  sale_start_time : Nat
  sale_end_time : Nat
  protocol_fee : Nat
  deriving DecidableEq, Repr

/-- Engine state (struct `State`, src/coreumNFT.rs lines 29-43),
extended with the three storage collections the methods use without
declaring them in the struct: the whitelist map written by
`State::whitelist` (line 115), the balance map read and written by
`get_balance`/`update_balance` (lines 161-174), and the minted-token
list pushed to by `State::mint` (line 191).  Balances are u64 values
(`get_balance` returns u64), `mint_price` is u128, times and the
counter are u64. -/
structure EngineState where
  base_token_uri : String
  base_token_uri_extension : String
  prereveal_token_uri : String
  treasury_address : String
  protocol_address : String
  mint_price : Nat
  sale_start_time : Nat
  sale_end_time : Nat
  protocol_fee : Nat
  max_total_mint : Nat
  current_token_id : Nat
  uri_status : Bool
  is_whitelisted : List (String × Bool)
  balance : List (String × Nat)
  nfts : List Nat
  deriving DecidableEq, Repr

/-- `State::new` (src/coreumNFT.rs lines 94-109).  Note line 100:
`protocol_address: String::new(), // Needs to be set`.  The storage
collections start empty. -/
def EngineState.new (dc : DeploymentConfig) (rc : RuntimeConfig) : EngineState :=
  { base_token_uri := rc.base_token_uri
    base_token_uri_extension := rc.base_token_uri_extension
    prereveal_token_uri := rc.prereveal_token_uri
    treasury_address := dc.treasury_address
    protocol_address := ""
    mint_price := rc.mint_price
    sale_start_time := rc.sale_start_time
    sale_end_time := rc.sale_end_time
    protocol_fee := rc.protocol_fee
    max_total_mint := dc.max_supply
    current_token_id := 0
    uri_status := false
    is_whitelisted := []
    balance := []
    nfts := [] }

/-- The whitelist read `self.is_whitelisted(&sender)` used by
`purchase` (src/coreumNFT.rs line 125): the stored flag, absence
meaning `false`. -/
def EngineState.isWhitelisted (s : EngineState) (addr : String) : Bool :=
  (mayLoad s.is_whitelisted addr).getD false

/-- `State::get_balance` (src/coreumNFT.rs lines 161-164):
`may_load(..).unwrap_or_default()`, so 0 for an address with no ledger
entry.  Storage read errors are not modelled (the read always
succeeds). -/
def EngineState.get_balance (s : EngineState) (addr : String) : Nat :=
  (mayLoad s.balance addr).getD 0

/-- `State::update_balance` (src/coreumNFT.rs lines 166-174): reject a
debit below zero with `InsufficientFunds`, otherwise store
`(current_balance + amount) as u64` (the i128 to u64 cast of the
non-negative sum is truncation modulo 2^64).  Returns the error, if
any, paired with the state of `self` after the method ran. -/
def EngineState.update_balance (s : EngineState) (addr : String) (amount : Int) :
    Option ContractError × EngineState :=
  if ((s.get_balance addr : Int) + amount) < 0 then
    (some ContractError.InsufficientFunds, s)
  else
    (none, { s with
      balance := mapSave s.balance addr (((s.get_balance addr : Int) + amount).toNat % U64) })

/-- `State::mint` (src/coreumNFT.rs lines 176-196): read the current
counter as the token id, call the external cw721 mint (its outcome is
the `cw721_ok` input; a failure propagates through `?` at line 187),
then on success increment the counter and push the token id. -/
def EngineState.mint (s : EngineState) (cw721_ok : Bool) (_recipient : String) :
    Option ContractError × EngineState :=
  if cw721_ok then
    (none, { s with
      current_token_id := (s.current_token_id + 1) % U64
      nfts := s.nfts ++ [s.current_token_id] })
  else
    (some ContractError.External, s)

/-- Sequencing of fallible mutations on `&mut self`: an error from the
first action propagates (the `?` operator) while keeping the mutations
it already made. -/
def step (r : Option ContractError × EngineState)
    (f : EngineState → Option ContractError × EngineState) :
    Option ContractError × EngineState :=
  match r with
  | (some e, s) => (some e, s)
  | (none, s) => f s

/-- The mint loop of `purchase` (src/coreumNFT.rs lines 154-156): call
`mint` `count` times; `oks i` is the outcome of the i-th external
cw721 call of this purchase. -/
def EngineState.mintMany (s : EngineState) (recipient : String) (oks : Nat → Bool)
    (i : Nat) : Nat → Option ContractError × EngineState
  | 0 => (none, s)
  | n + 1 =>
      step (s.mint (oks i) recipient) fun t => t.mintMany recipient oks (i + 1) n

/-- `total_cost = self.mint_price * (count as u128)`
(src/coreumNFT.rs line 136): unchecked u128 multiplication, reduced
modulo 2^128. -/
def totalCost (s : EngineState) (count : Nat) : Nat :=
  s.mint_price * count % U128

/-- `protocol_fee_amount = (total_cost * (self.protocol_fee as u128)) / 100`
(src/coreumNFT.rs line 144): unchecked u128 multiplication then
integer division. -/
def protocolFeeAmount (s : EngineState) (total_cost : Nat) : Nat :=
  total_cost * s.protocol_fee % U128 / 100

/-- `treasury_amount = total_cost - protocol_fee_amount`
(src/coreumNFT.rs line 145): wrapping u128 subtraction. -/
def treasuryAmount (total_cost protocol_fee_amount : Nat) : Nat :=
  (U128 + total_cost - protocol_fee_amount) % U128

/-- `State::purchase` (src/coreumNFT.rs lines 123-160), with the block
time `env.block.time` passed as `now` and the external cw721 mint
outcomes passed as `oks`.  Checks in source order: whitelist (line
125), sale window (lines 130-133), funds (lines 138-141); then the fee
split (lines 144-145), the three balance updates (lines 148-150, the
u128 amounts cast `as u64`), the counter advance by `count` (line 151)
and the mint loop (lines 154-156).  Returns the error, if any, paired
with the state of `self` after the method ran. -/
def EngineState.purchase (s : EngineState) (now : Nat) (count : Nat) (sender : String)
    (oks : Nat → Bool) : Option ContractError × EngineState :=
  if s.isWhitelisted sender = false then
    (some ContractError.Unauthorized, s)
  else if now < s.sale_start_time ∨ now > s.sale_end_time then
    (some ContractError.SaleNotActive, s)
  else
    let total_cost := totalCost s count
    if total_cost > s.get_balance sender then
      (some ContractError.InsufficientFunds, s)
    else
      let protocol_fee_amount := protocolFeeAmount s total_cost
      let treasury_amount := treasuryAmount total_cost protocol_fee_amount
      step (s.update_balance sender (-(total_cost : Int))) fun s1 =>
      step (s1.update_balance s1.protocol_address ((protocol_fee_amount % U64 : Nat) : Int)) fun s2 =>
      step (s2.update_balance s2.treasury_address ((treasury_amount % U64 : Nat) : Int)) fun s3 =>
      EngineState.mintMany
        { s3 with current_token_id := (s3.current_token_id + count) % U64 }
        sender oks 0 count

/-- Factory error kind (`StdError::generic_err`,
src/coreumNFTFactory.rs line 93). -/
inductive StdError
  | genericErr (msg : String)
  deriving DecidableEq, Repr

/-- Factory state (struct `State`, src/coreumNFTFactory.rs lines 7-12),
extended with the storage maps its methods use without declaring them:
the collection name to address map read by `get_contract_address`
(line 90) and the three maps written by `set_base_uri` and
`set_whitelist` (lines 61-62 and 72-83). -/
structure FactoryState where
  contracts : List (String × List String)
  all_collections : List String
  owner : String
  collection_addresses : List (String × String)
  collection_base_uris : List (String × String)
  collection_uri_statuses : List (String × Bool)
  whitelisted_users : List (String × List String)
  deriving DecidableEq, Repr

/-- `State::store_collection` (src/coreumNFTFactory.rs lines 32-38):
append the collection to the owner entry (default empty) and to the
global list.  Always succeeds. -/
def FactoryState.store_collection (s : FactoryState) (owner collection : String) :
    Option StdError × FactoryState :=
  let owner_collections := (mayLoad s.contracts owner).getD []
  let new_collections := owner_collections ++ [collection]
  (none, { s with
    contracts := mapSave s.contracts owner new_collections
    all_collections := s.all_collections ++ [collection] })

/-- `State::get_last_deployed` (src/coreumNFTFactory.rs lines 40-43):
the last element of the owner entry, if any. -/
def FactoryState.get_last_deployed (s : FactoryState) (owner : String) : Option String :=
  (mayLoad s.contracts owner).bind fun collections => collections.getLast?

/-- `State::get_all_contracts` (src/coreumNFTFactory.rs lines 45-47). -/
def FactoryState.get_all_contracts (s : FactoryState) : List String :=
  s.all_collections

/-- `State::get_deployed` (src/coreumNFTFactory.rs lines 49-53): the
owner entry, defaulting to the empty list. -/
def FactoryState.get_deployed (s : FactoryState) (owner : String) : List String :=
  (mayLoad s.contracts owner).getD []

/-- `State::get_contract_address` (src/coreumNFTFactory.rs lines
88-95): look up the address for a collection name, or fail with the
generic "Collection not found" error. -/
def FactoryState.get_contract_address (s : FactoryState) (collection : String) :
    Except StdError String :=
  match mayLoad s.collection_addresses collection with
  | some contract_address => Except.ok contract_address
  | none => Except.error (StdError.genericErr "Collection not found")

/-- `State::set_base_uri` (src/coreumNFTFactory.rs lines 56-65):
resolve the address from the name, then store the uri and the status
keyed by that address. -/
def FactoryState.set_base_uri (s : FactoryState) (collection uri : String) (status : Bool) :
    Option StdError × FactoryState :=
  match s.get_contract_address collection with
  | Except.error e => (some e, s)
  | Except.ok contract_address =>
      (none, { s with
        collection_base_uris := mapSave s.collection_base_uris contract_address uri
        collection_uri_statuses := mapSave s.collection_uri_statuses contract_address status })

/-- `State::set_whitelist` (src/coreumNFTFactory.rs lines 67-86):
resolve the address from the name, then update the user list at that
address: push on `status = true`, retain the other users on
`status = false`, and create a singleton list when absent. -/
def FactoryState.set_whitelist (s : FactoryState) (collection user : String) (status : Bool) :
    Option StdError × FactoryState :=
  match s.get_contract_address collection with
  | Except.error e => (some e, s)
  | Except.ok contract_address =>
      let updated :=
        match mayLoad s.whitelisted_users contract_address with
        | some list => if status then list ++ [user] else list.filter (fun u => u ≠ user)
        | none => [user]
      (none, { s with
        whitelisted_users := mapSave s.whitelisted_users contract_address updated })

/-- Factory messages (src/coreumNFTFactory.rs lines 14-29). -/
inductive HandleMsg
  | CreateCollection (deployment_config : DeploymentConfig) (runtime_config : RuntimeConfig)
  | SetBaseURI (collection uri : String) (status : Bool)
  | SetWhitelist (collection user : String) (status : Bool)

/-- `handle` (src/coreumNFTFactory.rs lines 106-133).  For
`CreateCollection` the address returned by `create_collection` (engine
instantiation, external to these sources) is the explicit input
`new_collection_addr`; the result is stored for `info.sender`.  The
`SetBaseURI` and `SetWhitelist` arms call the corresponding state
methods directly: the code performs no caller check in any arm. -/
def handle (s : FactoryState) (sender : String) (new_collection_addr : String)
    (msg : HandleMsg) : Option StdError × FactoryState :=
  match msg with
  | HandleMsg.CreateCollection _ _ => s.store_collection sender new_collection_addr
  | HandleMsg.SetBaseURI collection uri status => s.set_base_uri collection uri status
  | HandleMsg.SetWhitelist collection user status => s.set_whitelist collection user status

/-- Concrete engine state: whitelisted buyer "b" with balance 100,
price 10, fee 10 percent, sale window [0, 10], supply cap 100. -/
def engC1 : EngineState :=
  { base_token_uri := "", base_token_uri_extension := "", prereveal_token_uri := ""
    treasury_address := "t", protocol_address := "", mint_price := 10
    sale_start_time := 0, sale_end_time := 10, protocol_fee := 10
    max_total_mint := 100, current_token_id := 0, uri_status := false
    is_whitelisted := [("b", true)], balance := [("b", 100)], nfts := [] }

/-- Concrete engine state with supply cap 1 and zero price. -/
def engC2 : EngineState :=
  { base_token_uri := "", base_token_uri_extension := "", prereveal_token_uri := ""
    treasury_address := "t", protocol_address := "", mint_price := 0
    sale_start_time := 0, sale_end_time := 10, protocol_fee := 10
    max_total_mint := 1, current_token_id := 0, uri_status := false
    is_whitelisted := [("b", true)], balance := [], nfts := [] }

/-- Concrete engine state whose mint unit price is 2^127, so that a
purchase of two tokens overflows the u128 cost multiplication. -/
def engC5 : EngineState :=
  { base_token_uri := "", base_token_uri_extension := "", prereveal_token_uri := ""
    treasury_address := "t", protocol_address := "", mint_price := 2 ^ 127
    sale_start_time := 0, sale_end_time := 10, protocol_fee := 10
    max_total_mint := 100, current_token_id := 0, uri_status := false
    is_whitelisted := [("b", true)], balance := [("b", 0)], nfts := [] }

/-- Concrete engine state: whitelisted buyer "b" with only 5 units of
balance against a price of 10. -/
def engC6 : EngineState :=
  { base_token_uri := "", base_token_uri_extension := "", prereveal_token_uri := ""
    treasury_address := "t", protocol_address := "", mint_price := 10
    sale_start_time := 0, sale_end_time := 10, protocol_fee := 10
    max_total_mint := 100, current_token_id := 0, uri_status := false
    is_whitelisted := [("b", true)], balance := [("b", 5)], nfts := [] }

/-- Concrete engine state with sale window [3, 10]. -/
def engC7 : EngineState :=
  { base_token_uri := "", base_token_uri_extension := "", prereveal_token_uri := ""
    treasury_address := "t", protocol_address := "", mint_price := 10
    sale_start_time := 3, sale_end_time := 10, protocol_fee := 10
    max_total_mint := 100, current_token_id := 0, uri_status := false
    is_whitelisted := [("b", true)], balance := [("b", 250)], nfts := [] }

/-- Concrete engine state mirroring the worked example of the spec:
price 100, fee 10 percent, buyer balance 250. -/
def engC4 : EngineState :=
  { base_token_uri := "", base_token_uri_extension := "", prereveal_token_uri := ""
    treasury_address := "t", protocol_address := "", mint_price := 100
    sale_start_time := 0, sale_end_time := 10, protocol_fee := 10
    max_total_mint := 100, current_token_id := 0, uri_status := false
    is_whitelisted := [("b", true)], balance := [("b", 250)], nfts := [] }

/-- Concrete factory state owned by "alice" with one collection name
"c" mapped to address "addr1". -/
def facC8 : FactoryState :=
  { contracts := [], all_collections := [], owner := "alice"
    collection_addresses := [("c", "addr1")], collection_base_uris := []
    collection_uri_statuses := [], whitelisted_users := [] }

/-- Concrete empty factory state (no collection name is mapped). -/
def facC8e : FactoryState :=
  { contracts := [], all_collections := [], owner := "alice"
    collection_addresses := [], collection_base_uris := []
    collection_uri_statuses := [], whitelisted_users := [] }

/-- Concrete engine state with the empty-string protocol address the
code leaves in place, price 100, fee 10 percent, buyer balance 250. -/
def engC10 : EngineState :=
  { base_token_uri := "", base_token_uri_extension := "", prereveal_token_uri := ""
    treasury_address := "t", protocol_address := "", mint_price := 100
    sale_start_time := 0, sale_end_time := 10, protocol_fee := 10
    max_total_mint := 100, current_token_id := 0, uri_status := false
    is_whitelisted := [("b", true)], balance := [("b", 250)], nfts := [] }

/-- Reading back the key just written returns the written value. -/
theorem mayLoad_mapSave_eq {α : Type} (m : List (String × α)) (k : String) (v : α) :
    mayLoad (mapSave m k v) k = some v := by
  induction m with
  | nil => simp [mapSave, mayLoad]
  | cons hd tl ih =>
      obtain ⟨a, b⟩ := hd
      by_cases h : a = k
      · simp [mapSave, h, mayLoad]
      · simp [mapSave, h, mayLoad, ih]

/-- Writing one key leaves every other key unchanged. -/
theorem mayLoad_mapSave_ne {α : Type} (m : List (String × α)) (k j : String) (v : α)
    (h : j ≠ k) : mayLoad (mapSave m k v) j = mayLoad m j := by
  have hkj : k ≠ j := Ne.symm h
  induction m with
  | nil => simp [mapSave, mayLoad, hkj]
  | cons hd tl ih =>
      obtain ⟨a, b⟩ := hd
      by_cases hak : a = k
      · subst hak
        simp [mapSave, mayLoad, hkj]
      · simp [mapSave, hak, mayLoad, ih]

theorem step_none (s : EngineState) (f : EngineState → Option ContractError × EngineState) :
    step (none, s) f = f s := rfl

theorem step_some (e : ContractError) (s : EngineState)
    (f : EngineState → Option ContractError × EngineState) :
    step (some e, s) f = (some e, s) := rfl

/-- A balance update that cannot underflow succeeds and stores the
truncated sum. -/
theorem update_balance_ok (s : EngineState) (addr : String) (amount : Int)
    (h : 0 ≤ (s.get_balance addr : Int) + amount) :
    s.update_balance addr amount =
      (none, { s with balance := mapSave s.balance addr (((s.get_balance addr : Int) + amount).toNat % U64) }) := by
  unfold EngineState.update_balance
  rw [if_neg (by omega)]

/-- `update_balance` either succeeds or fails with `InsufficientFunds`. -/
theorem update_balance_fst_cases (s : EngineState) (addr : String) (amount : Int) :
    (s.update_balance addr amount).1 = none ∨
    (s.update_balance addr amount).1 = some ContractError.InsufficientFunds := by
  unfold EngineState.update_balance
  split <;> simp

/-- The mint loop either succeeds or propagates the external error. -/
theorem mintMany_fst_cases (recipient : String) (oks : Nat → Bool) :
    ∀ (n i : Nat) (s : EngineState),
      (s.mintMany recipient oks i n).1 = none ∨
      (s.mintMany recipient oks i n).1 = some ContractError.External := by
  intro n
  induction n with
  | zero => intro i s; left; rfl
  | succ m ih =>
      intro i s
      unfold EngineState.mintMany
      by_cases h : oks i = true
      · simp [EngineState.mint, h, step]
        exact ih (i + 1) _
      · simp [EngineState.mint, h, step]

/-- When every external cw721 call succeeds, the mint loop succeeds. -/
theorem mintMany_fst_of_true (recipient : String) (oks : Nat → Bool)
    (hoks : ∀ j, oks j = true) :
    ∀ (n i : Nat) (s : EngineState), (s.mintMany recipient oks i n).1 = none := by
  intro n
  induction n with
  | zero => intro i s; rfl
  | succ m ih =>
      intro i s
      unfold EngineState.mintMany
      simp [EngineState.mint, hoks i, step]
      exact ih (i + 1) _

/-- The mint loop never touches the balance map. -/
theorem mintMany_balance (recipient : String) (oks : Nat → Bool) :
    ∀ (n i : Nat) (s : EngineState),
      ((s.mintMany recipient oks i n).2).balance = s.balance := by
  intro n
  induction n with
  | zero => intro i s; rfl
  | succ m ih =>
      intro i s
      unfold EngineState.mintMany
      by_cases h : oks i = true
      · simp [EngineState.mint, h, step]
        exact ih (i + 1) _
      · simp [EngineState.mint, h, step]

/-- Propagation preserves exclusion of an error value. -/
theorem step_fst_ne (r : Option ContractError × EngineState)
    (f : EngineState → Option ContractError × EngineState) (x : ContractError)
    (hr : r.1 ≠ some x) (hf : ∀ t, (f t).1 ≠ some x) : (step r f).1 ≠ some x := by
  obtain ⟨e, t⟩ := r
  cases e with
  | none => simpa [step] using hf t
  | some e => simpa [step] using hr

/-- `update_balance` never produces `SaleNotActive`. -/
theorem update_balance_fst_ne_sale (s : EngineState) (addr : String) (amount : Int) :
    (s.update_balance addr amount).1 ≠ some ContractError.SaleNotActive := by
  rcases update_balance_fst_cases s addr amount with h | h <;> rw [h] <;> simp

/-- The mint loop never produces `SaleNotActive`. -/
theorem mintMany_fst_ne_sale (recipient : String) (oks : Nat → Bool) (n i : Nat)
    (s : EngineState) :
    (s.mintMany recipient oks i n).1 ≠ some ContractError.SaleNotActive := by
  rcases mintMany_fst_cases recipient oks n i s with h | h <;> rw [h] <;> simp

/-- Inversion: a purchase that did not fail passed the funds check, so
the (wrapped) total cost is at most the stored buyer balance. -/
theorem purchase_fst_none_funds (s : EngineState) (now count : Nat) (sender : String)
    (oks : Nat → Bool) (h : (s.purchase now count sender oks).1 = none) :
    totalCost s count ≤ s.get_balance sender := by
  unfold EngineState.purchase at h
  by_cases h1 : s.isWhitelisted sender = false
  · rw [if_pos h1] at h; simp at h
  · rw [if_neg h1] at h
    by_cases h2 : now < s.sale_start_time ∨ now > s.sale_end_time
    · rw [if_pos h2] at h; simp at h
    · rw [if_neg h2] at h
      simp only [] at h
      by_cases h3 : totalCost s count > s.get_balance sender
      · rw [if_pos h3] at h; simp at h
      · omega

/-- The success path of `purchase`: when the buyer is whitelisted, the
time is inside the window and the wrapped total cost is covered, the
method reaches the mint loop with the debit, the two credits and the
counter advance applied. -/
theorem purchase_success_reduce (s : EngineState) (now count : Nat) (sender : String)
    (oks : Nat → Bool) (h1 : s.isWhitelisted sender = true)
    (h2 : s.sale_start_time ≤ now) (h3 : now ≤ s.sale_end_time)
    (h4 : totalCost s count ≤ s.get_balance sender) :
    s.purchase now count sender oks =
      (let s1 := { s with balance := mapSave s.balance sender (((s.get_balance sender : Int) + -(totalCost s count : Int)).toNat % U64) }
       let s2 := { s1 with balance := mapSave s1.balance s1.protocol_address (((s1.get_balance s1.protocol_address : Int) + ((protocolFeeAmount s (totalCost s count) % U64 : Nat) : Int)).toNat % U64) }
       let s3 := { s2 with balance := mapSave s2.balance s2.treasury_address (((s2.get_balance s2.treasury_address : Int) + ((treasuryAmount (totalCost s count) (protocolFeeAmount s (totalCost s count)) % U64 : Nat) : Int)).toNat % U64) }
       EngineState.mintMany { s3 with current_token_id := (s3.current_token_id + count) % U64 } sender oks 0 count) := by
  unfold EngineState.purchase
  rw [if_neg (by simp [h1]), if_neg (by omega)]
  simp only []
  rw [if_neg (by omega)]
  rw [update_balance_ok _ _ _ (by omega)]
  rw [step_none]
  rw [update_balance_ok _ _ _ (by omega)]
  rw [step_none]
  rw [update_balance_ok _ _ _ (by omega)]
  rw [step_none]

/-- C1: evaluation of the code at the failing input.  A single
successful purchase of one token from a fresh counter succeeds, yet
`current_token_id` afterwards is 2 (not 0 + 1) and the minted token
carries identifier 1 (not the pre-purchase counter value 0): the
counter is advanced once by `count` in `purchase` (line 151) and once
more per mint in `mint` (line 190). -/
theorem C1_counter_eval :
    (engC1.purchase 5 1 "b" (fun _ => true)).1 = none ∧
    (engC1.purchase 5 1 "b" (fun _ => true)).2.current_token_id = 2 ∧
    (engC1.purchase 5 1 "b" (fun _ => true)).2.nfts = [1] := by
  refine ⟨rfl, rfl, rfl⟩

/-- C2: evaluation of the code at the failing input.  With
`max_total_mint = 1` and `current_token_id = 0`, a purchase of count 2
(which the claim says must fail with `SupplyExhausted` since
0 + 2 > 1) succeeds, and afterwards `current_token_id = 4`, exceeding
`max_total_mint`: `purchase` contains no capacity check. -/
theorem C2_capacity_eval :
    engC2.current_token_id + 2 > engC2.max_total_mint ∧
    (engC2.purchase 5 2 "b" (fun _ => true)).1 = none ∧
    (engC2.purchase 5 2 "b" (fun _ => true)).2.current_token_id = 4 ∧
    (engC2.purchase 5 2 "b" (fun _ => true)).2.current_token_id > engC2.max_total_mint := by
  refine ⟨by decide, rfl, rfl, by decide⟩

/-- C3: evaluation of the code at the failing input.  When the first
external cw721 mint call of a purchase of count 2 fails, the operation
returns the error, but the buyer debit (100 to 80), the protocol and
treasury credits (2 and 18) and the counter advance (0 to 2) all
remain in the resulting state: the code has no rollback of the
mutations made before the failing mint. -/
theorem C3_rollback_eval :
    (engC1.purchase 5 2 "b" (fun _ => false)).1 = some ContractError.External ∧
    (engC1.purchase 5 2 "b" (fun _ => false)).2.get_balance "b" = 80 ∧
    (engC1.purchase 5 2 "b" (fun _ => false)).2.get_balance "" = 2 ∧
    (engC1.purchase 5 2 "b" (fun _ => false)).2.get_balance "t" = 18 ∧
    (engC1.purchase 5 2 "b" (fun _ => false)).2.current_token_id = 2 ∧
    (engC1.purchase 5 2 "b" (fun _ => false)).2 ≠ engC1 := by
  refine ⟨rfl, rfl, rfl, rfl, rfl, by decide⟩

/-- C5: counterexample.  With `mint_price = 2^127` and `count = 2` the
mathematical product reaches 2^128, so the u128 multiplication
overflows; the claim says the call returns an `Overflow` error and
changes no state, but the call succeeds (the wrapped cost is 0) and
advances the counter. -/
theorem C5_counterexample :
    U128 ≤ engC5.mint_price * 2 ∧
    (engC5.purchase 5 2 "b" (fun _ => true)).1 = none ∧
    (engC5.purchase 5 2 "b" (fun _ => true)).2.current_token_id = 4 := by
  refine ⟨by decide, rfl, rfl⟩

/-- C4: for every successful purchase with a protocol fee percent of at
most 100, a count of at least 1 and a u64 buyer balance, the amounts
the code credits satisfy protocol_fee_amount =
floor(total_cost * protocol_fee / 100) (the intermediate u128
multiplication cannot wrap), treasury_amount = total_cost -
protocol_fee_amount (the subtraction cannot wrap), and the two credits
sum exactly to total_cost, the remainder of the division going to the
treasury. -/
theorem C4_fee_split (s : EngineState) (now count : Nat) (sender : String)
    (oks : Nat → Bool) (hfee : s.protocol_fee ≤ 100) (hcount : 1 ≤ count)
    (hwf : s.get_balance sender < U64)
    (hok : (s.purchase now count sender oks).1 = none) :
    protocolFeeAmount s (totalCost s count) = totalCost s count * s.protocol_fee / 100 ∧
    treasuryAmount (totalCost s count) (protocolFeeAmount s (totalCost s count)) =
      totalCost s count - protocolFeeAmount s (totalCost s count) ∧
    protocolFeeAmount s (totalCost s count) +
      treasuryAmount (totalCost s count) (protocolFeeAmount s (totalCost s count)) =
      totalCost s count := by
  have hb := purchase_fst_none_funds s now count sender oks hok
  have htc : totalCost s count < U64 := lt_of_le_of_lt hb hwf
  have hmul : totalCost s count * s.protocol_fee < U128 := by
    have h1 : totalCost s count * s.protocol_fee ≤ totalCost s count * 100 :=
      Nat.mul_le_mul (le_refl _) hfee
    simp only [U64, U128] at htc ⊢
    omega
  have hpfa : protocolFeeAmount s (totalCost s count) =
      totalCost s count * s.protocol_fee / 100 := by
    unfold protocolFeeAmount
    rw [Nat.mod_eq_of_lt hmul]
  have hle : protocolFeeAmount s (totalCost s count) ≤ totalCost s count := by
    rw [hpfa]
    calc totalCost s count * s.protocol_fee / 100
        ≤ totalCost s count * 100 / 100 :=
          Nat.div_le_div_right (Nat.mul_le_mul (le_refl _) hfee)
      _ = totalCost s count := Nat.mul_div_cancel _ (by norm_num)
  have htr : treasuryAmount (totalCost s count) (protocolFeeAmount s (totalCost s count)) =
      totalCost s count - protocolFeeAmount s (totalCost s count) := by
    unfold treasuryAmount
    have h1 : U128 + totalCost s count - protocolFeeAmount s (totalCost s count) =
        U128 + (totalCost s count - protocolFeeAmount s (totalCost s count)) := by omega
    have h2 : totalCost s count - protocolFeeAmount s (totalCost s count) < U128 := by
      simp only [U64, U128] at htc ⊢
      omega
    rw [h1, Nat.add_mod_left, Nat.mod_eq_of_lt h2]
  exact ⟨hpfa, htr, by omega⟩

/-- Witness for C4 at the worked example of the spec: price 100, fee
10 percent, balance 250, count 2. -/
theorem C4_fee_split_witness :
    protocolFeeAmount engC4 (totalCost engC4 2) = totalCost engC4 2 * engC4.protocol_fee / 100 ∧
    treasuryAmount (totalCost engC4 2) (protocolFeeAmount engC4 (totalCost engC4 2)) =
      totalCost engC4 2 - protocolFeeAmount engC4 (totalCost engC4 2) ∧
    protocolFeeAmount engC4 (totalCost engC4 2) +
      treasuryAmount (totalCost engC4 2) (protocolFeeAmount engC4 (totalCost engC4 2)) =
      totalCost engC4 2 :=
  C4_fee_split engC4 5 2 "b" (fun _ => true) (by decide) (by decide) (by decide) (by rfl)

/-- C5 (amended): the cost multiplication at src/coreumNFT.rs line 136
is unchecked, so even when the mathematical product
`mint_price * count` reaches 2^128 the call does not return an
`Overflow` error: whenever the buyer is whitelisted, the time is in
the window, the wrapped cost is covered by the buyer balance and the
external mint calls succeed, the purchase completes, proceeding with
the wrapped total cost. -/
theorem C5_unchecked_mul (s : EngineState) (now count : Nat) (sender : String)
    (h1 : s.isWhitelisted sender = true) (h2 : s.sale_start_time ≤ now)
    (h3 : now ≤ s.sale_end_time) (hover : U128 ≤ s.mint_price * count)
    (h4 : totalCost s count ≤ s.get_balance sender) :
    (s.purchase now count sender (fun _ => true)).1 = none := by
  rw [purchase_success_reduce s now count sender _ h1 h2 h3 h4]
  exact mintMany_fst_of_true sender _ (fun j => rfl) count 0 _

/-- Witness for C5 (amended) at mint price 2^127 and count 2. -/
theorem C5_unchecked_mul_witness :
    (engC5.purchase 5 2 "b" (fun _ => true)).1 = none :=
  C5_unchecked_mul engC5 5 2 "b" (by decide) (by decide) (by decide) (by decide) (by decide)

/-- C6: a purchase by a whitelisted buyer inside the sale window whose
stored balance is strictly below the total cost fails with
`InsufficientFunds` and returns the state unchanged (so every ledger
balance is unchanged); and `get_balance` returns 0 for any address
with no ledger entry. -/
theorem C6_insufficient_funds (s : EngineState) (now count : Nat) (sender : String)
    (oks : Nat → Bool) (h1 : s.isWhitelisted sender = true)
    (h2 : s.sale_start_time ≤ now) (h3 : now ≤ s.sale_end_time)
    (h4 : s.get_balance sender < totalCost s count) :
    s.purchase now count sender oks = (some ContractError.InsufficientFunds, s) ∧
    ∀ (t : EngineState) (addr : String), mayLoad t.balance addr = none →
      t.get_balance addr = 0 := by
  constructor
  · unfold EngineState.purchase
    rw [if_neg (by simp [h1]), if_neg (by omega)]
    simp only []
    rw [if_pos (by omega)]
  · intro t addr h
    simp [EngineState.get_balance, h]

/-- Witness for C6: balance 5 against cost 10, and a missing ledger
entry reads as 0. -/
theorem C6_insufficient_funds_witness :
    engC6.purchase 5 1 "b" (fun _ => true) = (some ContractError.InsufficientFunds, engC6) ∧
    engC6.get_balance "nobody" = 0 :=
  ⟨(C6_insufficient_funds engC6 5 1 "b" (fun _ => true) (by decide) (by decide) (by decide)
      (by decide)).1,
   (C6_insufficient_funds engC6 5 1 "b" (fun _ => true) (by decide) (by decide) (by decide)
      (by decide)).2 engC6 "nobody" (by rfl)⟩

/-- C7: a purchase by a whitelisted buyer strictly before
`sale_start_time` or strictly after `sale_end_time` fails with
`SaleNotActive` and returns the state unchanged (ledger balances and
`current_token_id` untouched); and at exactly `sale_start_time` or
exactly `sale_end_time` (the window being well formed) the call is
never rejected with `SaleNotActive`: the window is inclusive at both
ends. -/
theorem C7_sale_window (s : EngineState) (now count : Nat) (sender : String)
    (oks : Nat → Bool) :
    (s.isWhitelisted sender = true →
      (now < s.sale_start_time ∨ now > s.sale_end_time) →
      s.purchase now count sender oks = (some ContractError.SaleNotActive, s)) ∧
    (s.sale_start_time ≤ s.sale_end_time →
      (now = s.sale_start_time ∨ now = s.sale_end_time) →
      (s.purchase now count sender oks).1 ≠ some ContractError.SaleNotActive) := by
  constructor
  · intro h1 hwin
    unfold EngineState.purchase
    rw [if_neg (by simp [h1]), if_pos hwin]
  · intro hse hnow
    unfold EngineState.purchase
    by_cases h1 : s.isWhitelisted sender = false
    · rw [if_pos h1]; simp
    · rw [if_neg h1, if_neg (by omega)]
      simp only []
      by_cases h3 : totalCost s count > s.get_balance sender
      · rw [if_pos h3]; simp
      · rw [if_neg h3]
        refine step_fst_ne _ _ _ (update_balance_fst_ne_sale _ _ _) ?_
        intro t1
        refine step_fst_ne _ _ _ (update_balance_fst_ne_sale _ _ _) ?_
        intro t2
        refine step_fst_ne _ _ _ (update_balance_fst_ne_sale _ _ _) ?_
        intro t3
        exact mintMany_fst_ne_sale sender oks count 0 _

/-- Witness for C7: with window [3, 10], a call at time 20 fails with
`SaleNotActive` and leaves the state unchanged, while a call at the
start boundary 3 is not rejected by the window check. -/
theorem C7_sale_window_witness :
    engC7.purchase 20 1 "b" (fun _ => true) = (some ContractError.SaleNotActive, engC7) ∧
    (engC7.purchase 3 1 "b" (fun _ => true)).1 ≠ some ContractError.SaleNotActive :=
  ⟨(C7_sale_window engC7 20 1 "b" (fun _ => true)).1 (by decide) (by decide),
   (C7_sale_window engC7 3 1 "b" (fun _ => true)).2 (by decide) (by decide)⟩

/-- C8: counterexample.  The registry code performs no caller check:
a `SetBaseURI` and a `SetWhitelist` call by "mallory", who is not the
stored owner "alice" of the registry (nor of any collection), both
succeed instead of failing with `Unauthorized`. -/
theorem C8_counterexample :
    "mallory" ≠ facC8.owner ∧
    (handle facC8 "mallory" "" (HandleMsg.SetBaseURI "c" "u" true)).1 = none ∧
    (handle facC8 "mallory" "" (HandleMsg.SetWhitelist "c" "u2" true)).1 = none := by
  refine ⟨by decide, rfl, rfl⟩

/-- C8 (amended): `SetBaseURI` and `SetWhitelist` perform no caller
authorization at all; when no collection of the given name exists in
the name-to-address mapping, both fail with the generic
"Collection not found" error, and on that failure no registry state
changes. -/
theorem C8_collection_not_found (s : FactoryState)
    (sender addr collection uri user : String) (status : Bool)
    (h : mayLoad s.collection_addresses collection = none) :
    handle s sender addr (HandleMsg.SetBaseURI collection uri status) =
      (some (StdError.genericErr "Collection not found"), s) ∧
    handle s sender addr (HandleMsg.SetWhitelist collection user status) =
      (some (StdError.genericErr "Collection not found"), s) := by
  constructor
  · simp [handle, FactoryState.set_base_uri, FactoryState.get_contract_address, h]
  · simp [handle, FactoryState.set_whitelist, FactoryState.get_contract_address, h]

/-- Witness for C8 (amended) on a registry with no name mapping. -/
theorem C8_collection_not_found_witness :
    handle facC8e "x" "" (HandleMsg.SetBaseURI "c" "u" true) =
      (some (StdError.genericErr "Collection not found"), facC8e) ∧
    handle facC8e "x" "" (HandleMsg.SetWhitelist "c" "u" true) =
      (some (StdError.genericErr "Collection not found"), facC8e) :=
  C8_collection_not_found facC8e "x" "" "c" "u" "u" true (by rfl)

/-- The last element of a list extended by one element. -/
theorem getLast_append_singleton {α : Type} (l : List α) (a : α) :
    (l ++ [a]).getLast? = some a := by
  rw [List.getLast?_append_cons]
  rfl

/-- `store_collection` appends to the owner entry. -/
theorem store_collection_deployed_self (t : FactoryState) (ow c : String) :
    ((t.store_collection ow c).2).get_deployed ow = t.get_deployed ow ++ [c] := by
  simp [FactoryState.store_collection, FactoryState.get_deployed, mayLoad_mapSave_eq]

/-- `store_collection` leaves every other owner entry unchanged. -/
theorem store_collection_deployed_other (t : FactoryState) (ow c o2 : String)
    (h : o2 ≠ ow) :
    ((t.store_collection ow c).2).get_deployed o2 = t.get_deployed o2 := by
  simp [FactoryState.store_collection, FactoryState.get_deployed,
    mayLoad_mapSave_ne _ _ _ _ h]

/-- `set_base_uri` never touches the registry sequences. -/
theorem set_base_uri_sequences (t : FactoryState) (c u : String) (st : Bool) :
    ((t.set_base_uri c u st).2).contracts = t.contracts ∧
    ((t.set_base_uri c u st).2).all_collections = t.all_collections := by
  unfold FactoryState.set_base_uri
  split <;> simp

/-- `set_whitelist` never touches the registry sequences. -/
theorem set_whitelist_sequences (t : FactoryState) (c u : String) (st : Bool) :
    ((t.set_whitelist c u st).2).contracts = t.contracts ∧
    ((t.set_whitelist c u st).2).all_collections = t.all_collections := by
  unfold FactoryState.set_whitelist
  split <;> simp

/-- C9: after two successful `CreateCollection` calls by the same
owner, `get_last_deployed` returns the second address,
`get_deployed` returns the previous sequence extended by both
addresses in creation order, and `get_all_contracts` contains both;
moreover every registry operation only ever appends to the per-owner
and global sequences (no removal, no reordering). -/
theorem C9_registry (s : FactoryState) (o a1 a2 : String) (dc : DeploymentConfig)
    (rc : RuntimeConfig) :
    (handle s o a1 (HandleMsg.CreateCollection dc rc)).1 = none ∧
    (handle (handle s o a1 (HandleMsg.CreateCollection dc rc)).2 o a2
      (HandleMsg.CreateCollection dc rc)).1 = none ∧
    ((handle (handle s o a1 (HandleMsg.CreateCollection dc rc)).2 o a2
      (HandleMsg.CreateCollection dc rc)).2).get_last_deployed o = some a2 ∧
    ((handle (handle s o a1 (HandleMsg.CreateCollection dc rc)).2 o a2
      (HandleMsg.CreateCollection dc rc)).2).get_deployed o =
      s.get_deployed o ++ [a1, a2] ∧
    a1 ∈ ((handle (handle s o a1 (HandleMsg.CreateCollection dc rc)).2 o a2
      (HandleMsg.CreateCollection dc rc)).2).get_all_contracts ∧
    a2 ∈ ((handle (handle s o a1 (HandleMsg.CreateCollection dc rc)).2 o a2
      (HandleMsg.CreateCollection dc rc)).2).get_all_contracts ∧
    (∀ (t : FactoryState) (sender addr o2 : String) (msg : HandleMsg),
      (∃ tail, ((handle t sender addr msg).2).get_deployed o2 =
        t.get_deployed o2 ++ tail) ∧
      (∃ tail, ((handle t sender addr msg).2).get_all_contracts =
        t.get_all_contracts ++ tail)) := by
  refine ⟨rfl, rfl, ?_, ?_, ?_, ?_, ?_⟩
  · show ((((handle s o a1 (HandleMsg.CreateCollection dc rc)).2).store_collection o a2).2).get_last_deployed o = some a2
    simp [handle, FactoryState.store_collection, FactoryState.get_last_deployed,
      mayLoad_mapSave_eq, getLast_append_singleton]
  · show ((((handle s o a1 (HandleMsg.CreateCollection dc rc)).2).store_collection o a2).2).get_deployed o = s.get_deployed o ++ [a1, a2]
    rw [store_collection_deployed_self]
    show (((s.store_collection o a1).2).get_deployed o) ++ [a2] = s.get_deployed o ++ [a1, a2]
    rw [store_collection_deployed_self]
    simp
  · simp [handle, FactoryState.store_collection, FactoryState.get_all_contracts]
  · simp [handle, FactoryState.store_collection, FactoryState.get_all_contracts]
  · intro t sender addr o2 msg
    cases msg with
    | CreateCollection dc2 rc2 =>
        constructor
        · by_cases h : o2 = sender
          · subst h
            exact ⟨[addr], store_collection_deployed_self t o2 addr⟩
          · exact ⟨[], by rw [List.append_nil]; exact store_collection_deployed_other t sender addr o2 h⟩
        · exact ⟨[addr], rfl⟩
    | SetBaseURI c u st =>
        constructor
        · refine ⟨[], ?_⟩
          rw [List.append_nil]
          show ((t.set_base_uri c u st).2).get_deployed o2 = t.get_deployed o2
          unfold FactoryState.get_deployed
          rw [(set_base_uri_sequences t c u st).1]
        · refine ⟨[], ?_⟩
          rw [List.append_nil]
          show ((t.set_base_uri c u st).2).get_all_contracts = t.get_all_contracts
          unfold FactoryState.get_all_contracts
          rw [(set_base_uri_sequences t c u st).2]
    | SetWhitelist c u st =>
        constructor
        · refine ⟨[], ?_⟩
          rw [List.append_nil]
          show ((t.set_whitelist c u st).2).get_deployed o2 = t.get_deployed o2
          unfold FactoryState.get_deployed
          rw [(set_whitelist_sequences t c u st).1]
        · refine ⟨[], ?_⟩
          rw [List.append_nil]
          show ((t.set_whitelist c u st).2).get_all_contracts = t.get_all_contracts
          unfold FactoryState.get_all_contracts
          rw [(set_whitelist_sequences t c u st).2]

/-- C10 (implicit): `State::new` always sets `protocol_address` to the
empty string (line 100, not taken from either configuration), and a
successful purchase from any state with the empty-string protocol
address credits the protocol fee amount to the ledger entry keyed by
the empty string (stated here for a buyer and treasury distinct from
the empty string and a credit that fits in u64). -/
theorem C10_protocol_address :
    (∀ (dc : DeploymentConfig) (rc : RuntimeConfig),
      (EngineState.new dc rc).protocol_address = "") ∧
    (∀ (s : EngineState) (now count : Nat) (sender : String),
      s.protocol_address = "" →
      s.isWhitelisted sender = true →
      s.sale_start_time ≤ now → now ≤ s.sale_end_time →
      totalCost s count ≤ s.get_balance sender →
      sender ≠ "" → s.treasury_address ≠ "" →
      s.get_balance "" + protocolFeeAmount s (totalCost s count) % U64 < U64 →
      (s.purchase now count sender (fun _ => true)).1 = none ∧
      ((s.purchase now count sender (fun _ => true)).2).get_balance "" =
        s.get_balance "" + protocolFeeAmount s (totalCost s count) % U64) := by
  constructor
  · intro dc rc
    rfl
  · intro s now count sender hp h1 h2 h3 h4 hs ht h8
    rw [purchase_success_reduce s now count sender _ h1 h2 h3 h4]
    constructor
    · exact mintMany_fst_of_true sender _ (fun j => rfl) count 0 _
    · simp only [EngineState.get_balance, mintMany_balance, hp]
      rw [mayLoad_mapSave_ne _ _ _ _ (Ne.symm ht), mayLoad_mapSave_eq]
      rw [mayLoad_mapSave_ne _ _ _ _ (Ne.symm hs)]
      simp only [Option.getD_some]
      simp only [EngineState.get_balance, U64] at h8 ⊢
      omega

/-- Witness for C10: a fresh engine built from concrete configurations
has the empty protocol address, and a successful purchase of two
tokens at price 100 with fee 10 percent credits 20 to the
empty-string ledger entry. -/
theorem C10_protocol_address_witness :
    (EngineState.new ⟨"n", "s", 100, "t"⟩ ⟨"", "", "", 100, 0, 10, 10⟩).protocol_address = "" ∧
    (engC10.purchase 5 2 "b" (fun _ => true)).1 = none ∧
    (engC10.purchase 5 2 "b" (fun _ => true)).2.get_balance "" =
      engC10.get_balance "" + protocolFeeAmount engC10 (totalCost engC10 2) % U64 :=
  ⟨C10_protocol_address.1 ⟨"n", "s", 100, "t"⟩ ⟨"", "", "", 100, 0, 10, 10⟩,
   (C10_protocol_address.2 engC10 5 2 "b" rfl (by decide) (by decide) (by decide) (by decide)
     (by decide) (by decide) (by decide)).1,
   (C10_protocol_address.2 engC10 5 2 "b" rfl (by decide) (by decide) (by decide) (by decide)
     (by decide) (by decide) (by decide)).2⟩
